import Mathlib

/-!
Verification development for the mushproject device-controller firmware.

Shallow embedding of the runtime components of the firmware
(common_firmware_lib plus the controller2 and controller3 FSM drivers):
the actuator command pipeline, the unique work queues, the sensor
read/publish scheduler, the restart-reason log, and the WAIT-state
dispatchers.  Arduino `unsigned long` millisecond arithmetic is modelled
as natural numbers with explicit wraparound modulo 2^32.
-/

namespace Mush

/-- Modulus of Arduino `unsigned long` (32-bit) arithmetic. -/
def M32 : Nat := 2 ^ 32

/-- Wrapping subtraction `a - b` on 32-bit unsigned values, as computed by
expressions such as `millis() - lastTime` in the source. -/
def usub (a b : Nat) : Nat := (a + (M32 - b % M32)) % M32

/-- Pointer identity of an `ActuatorControlPoint*` in the firmware heap. -/
abbrev AId := Nat

/-- Pointer identity of a `SensorPoint*` in the firmware heap. -/
abbrev SId := Nat

/-- Arduino `String::equalsIgnoreCase`: character-wise comparison after
lowercasing both sides (ASCII, as for the payloads the firmware compares). -/
def eqIgnoreCase (a b : String) : Bool :=
  a.data.map Char.toLower = b.data.map Char.toLower

/-- FSM states, from the `State` enum of controller2/src/main.cpp and the
`FsmState` enum used by controller3 (via autogen_config.h / FsmUtils.h). -/
inductive FsmState where
  | SETUP_HW
  | CONNECT_WIFI
  | SYNC_NTP
  | CONNECT_MQTT
  | PUBLISH_BOOT_STATUS
  | PROCESS_COMMANDS
  | READ_SENSORS
  | PUBLISH_DATA
  | OPERATIONAL_PERIODIC_CHECKS
  | WAIT
  | RESTART
  deriving DecidableEq, Repr

/-- Restart reasons, from the `RestartReason` enum in
include/RestartReasonLogger.h (stored persistently as `uint32_t`). -/
inductive RestartReason where
  | UNKNOWN_RESET
  | WIFI_TIMEOUT
  | MQTT_TIMEOUT
  | NTP_TIMEOUT
  | NOPUBLISH_TIMEOUT
  | COMMAND_ERROR
  | SENSOR_ERROR
  | SENSOR_INIT_FAILED
  | USER_REQUESTED
  | FIRMWARE_UPDATE
  deriving DecidableEq, Repr

/-- Integer code of a restart reason: the `static_cast<uint32_t>(reason)`
value stored by `Preferences::putUInt` (enum declaration order). -/
def RestartReason.toCode : RestartReason → Nat
  | .UNKNOWN_RESET => 0
  | .WIFI_TIMEOUT => 1
  | .MQTT_TIMEOUT => 2
  | .NTP_TIMEOUT => 3
  | .NOPUBLISH_TIMEOUT => 4
  | .COMMAND_ERROR => 5
  | .SENSOR_ERROR => 6
  | .SENSOR_INIT_FAILED => 7
  | .USER_REQUESTED => 8
  | .FIRMWARE_UPDATE => 9

/-- The `static_cast<RestartReason>(storedReason)` performed when reading the
stored code back.  Codes outside the enum range cannot be produced by
`storeRestartReason`; they decode to the default `UNKNOWN_RESET`. -/
def restartReasonOfCode : Nat → RestartReason
  | 0 => .UNKNOWN_RESET
  | 1 => .WIFI_TIMEOUT
  | 2 => .MQTT_TIMEOUT
  | 3 => .NTP_TIMEOUT
  | 4 => .NOPUBLISH_TIMEOUT
  | 5 => .COMMAND_ERROR
  | 6 => .SENSOR_ERROR
  | 7 => .SENSOR_INIT_FAILED
  | 8 => .USER_REQUESTED
  | 9 => .FIRMWARE_UPDATE
  | _ => .UNKNOWN_RESET

/-- The ESP32 `Preferences` namespace "restart": the persistent key/value
store holding the keys "reason" and "timestamp".  `none` models an absent
key (removed or never written). -/
structure Preferences where
  reason : Option Nat
  timestamp : Option String
  deriving DecidableEq, Repr

/-- A stored restart event, from `struct RestartEvent`
(include/RestartReasonLogger.h): the default constructor yields
`UNKNOWN_RESET` with an empty timestamp. -/
structure RestartEvent where
  reason : RestartReason
  timestamp : String
  deriving DecidableEq, Repr

/-- RestartReasonLogger::storeRestartReason: always stores the reason code;
stores the formatted timestamp only if NTP reports the time set, otherwise
stores the empty string. -/
def storeRestartReason (_prefs : Preferences) (reason : RestartReason)
    (ntpTimeSet : Bool) (nowIso : String) : Preferences :=
  { reason := some reason.toCode
    timestamp := some (if ntpTimeSet then nowIso else "") }

/-- RestartReasonLogger::clearStoredRestartReason: removes both keys. -/
def clearStoredRestartReason (_prefs : Preferences) : Preferences :=
  { reason := none, timestamp := none }

/-- RestartReasonLogger::getStoredRestartEvent: reads the stored reason
(default `UNKNOWN_RESET`) and timestamp (default empty), then immediately
clears the stored entry, returning the event and the updated store. -/
def getStoredRestartEvent (prefs : Preferences) : RestartEvent × Preferences :=
  let storedReason := prefs.reason.getD RestartReason.UNKNOWN_RESET.toCode
  let storedTimestamp := prefs.timestamp.getD ""
  (⟨restartReasonOfCode storedReason, storedTimestamp⟩,
    clearStoredRestartReason prefs)

/-- One `ActuatorControlPoint` object together with the physical output it
drives.  `pinLevel` models the digital output latch written by
`digitalWrite(_pin, newState)` (HIGH = 1, LOW = 0); the remaining fields
are the data members of the class (include/ActuatorControlPoint.h). -/
structure Actuator where
  pin : Nat
  pinLevel : Nat
  initialState : Nat
  pointName : String
  writeTopic : String
  readbackTopic : String
  readbackUUID : String
  outputRepublishFrequencyMillis : Nat
  maxTimeNoPublishMillis : Nat
  lastPublishTimeMillis : Nat
  lastRepublishCheckTimeMillis : Nat
  lastSuccessfulPayload : String
  deriving DecidableEq, Repr

/-- The ActuatorControlPoint constructor: configuration from arguments, both
FSM-managed timestamps initialised to 0, no last successful payload, and
the physical output latch at its power-on LOW level (the constructor never
touches the pin). -/
def mkActuator (pin initialState : Nat) (pointName writeTopic readbackTopic
    readbackUUID : String) (outputRepublishFrequencyMillis
    maxTimeNoPublishMillis : Nat) : Actuator :=
  { pin := pin
    pinLevel := 0
    initialState := initialState
    pointName := pointName
    writeTopic := writeTopic
    readbackTopic := readbackTopic
    readbackUUID := readbackUUID
    outputRepublishFrequencyMillis := outputRepublishFrequencyMillis
    maxTimeNoPublishMillis := maxTimeNoPublishMillis
    lastPublishTimeMillis := 0
    lastRepublishCheckTimeMillis := 0
    lastSuccessfulPayload := "" }

/-- ActuatorControlPoint::payloadToHardwareState: "on" maps to HIGH (1),
"off" maps to LOW (0), anything else to the "safe default" LOW (0);
comparisons are case-insensitive. -/
def payloadToHardwareState (payload : String) : Nat :=
  if eqIgnoreCase payload "on" then 1
  else if eqIgnoreCase payload "off" then 0
  else 0

/-- ActuatorControlPoint::hardwareStateToPayload: HIGH maps to "on", any
other level to "off". -/
def hardwareStateToPayload (hwState : Nat) : String :=
  if hwState = 1 then "on" else "off"

/-- ActuatorControlPoint::executeDeviceCommand: if the payload equals "on"
or "off" case-insensitively, writes the converted level to the pin and
returns true; otherwise returns false and performs no write.  The returned
actuator is the object (plus its pin) after the call. -/
def executeDeviceCommand (a : Actuator) (commandPayload : String) :
    Bool × Actuator :=
  let newState := payloadToHardwareState commandPayload
  if eqIgnoreCase commandPayload "on" || eqIgnoreCase commandPayload "off" then
    (true, { a with pinLevel := newState })
  else
    (false, a)

/-- ActuatorControlPoint::setLastPublishTimeMillis (called by the FSM after
a confirmed publish of this actuator's readback). -/
def setLastPublishTimeMillis (a : Actuator) (time : Nat) : Actuator :=
  { a with lastPublishTimeMillis := time }

/-- ActuatorControlPoint::setLastSuccessfulPayload. -/
def setLastSuccessfulPayload (a : Actuator) (payload : String) : Actuator :=
  { a with lastSuccessfulPayload := payload }

/-- ActuatorControlPoint::isLastStateSet: true once a command has succeeded
(the last successful payload is non-empty). -/
def isLastStateSet (a : Actuator) : Bool := a.lastSuccessfulPayload ≠ ""

/-- ActuatorControlPoint::isTimeToRepublish as implemented in
src/ActuatorControlPoint.cpp: compares `millis()` against
`_lastRepublishCheckTimeMillis` (not `_lastPublishTimeMillis`). -/
def isTimeToRepublish (a : Actuator) (currentTime : Nat) : Bool :=
  decide (usub currentTime a.lastRepublishCheckTimeMillis ≥
    a.outputRepublishFrequencyMillis)

/-- The republish predicate as documented in
include/actuators/ActuatorControlPoint.h ("Returns true if
(millis() - _lastPublishTimeMillis >= _outputRepublishFrequencyMillis)")
and as the spec states it; kept separate for comparison with the
implemented `isTimeToRepublish`. -/
def isTimeToRepublishClaimed (a : Actuator) (currentTime : Nat) : Bool :=
  decide (usub currentTime a.lastPublishTimeMillis ≥
    a.outputRepublishFrequencyMillis)

/-- ActuatorControlPoint::hasNoPublishTimeoutOccurred: false when timeout
monitoring is disabled (`maxTimeNoPublishMillis == 0`), otherwise true
exactly when `millis() - _lastPublishTimeMillis` exceeds the threshold. -/
def hasNoPublishTimeoutOccurred (a : Actuator) (currentTime : Nat) : Bool :=
  if a.maxTimeNoPublishMillis = 0 then
    false
  else
    decide (usub currentTime a.lastPublishTimeMillis >
      a.maxTimeNoPublishMillis)

/-- One item of the outbound publish queue, from `struct PublishData`
(include/PublishData.h): topic, uuid, serialized value, ISO timestamp and
at most one back-reference to the originating actuator or sensor. -/
structure PublishData where
  topic : String
  uuid : String
  serializedValue : String
  timestampIsoUtc : String
  sourceActuator : Option AId
  sourceSensor : Option SId
  deriving DecidableEq, Repr

/-- Pointwise update of a heap of objects at one pointer. -/
def updateAt {α : Type} (heap : Nat → α) (p : Nat) (v : α) : Nat → α :=
  fun x => if x = p then v else heap x

/-- The global mutable state of controller2 (controller2/src/main.cpp):
the actuator heap, the latest-wins pending-command map, the
process queue with its duplicate-tracking set, the publish queue, the
persistent preferences store and the FSM state. -/
structure C2State where
  actuators : AId → Actuator
  pending : AId → Option String
  procQueue : List AId
  procSet : List AId
  publishQueue : List PublishData
  prefs : Preferences
  fsm : FsmState

/-- MqttService::instanceMqttCallback (src/MqttService.cpp lines 135-198),
taking the command value already extracted from the inbound JSON envelope
(the extraction of the "value" field, lines 150-173, precedes this logic
and drops malformed envelopes without touching any state): resolve the
topic through the static topic map (unknown topics are dropped), validate
the value against the exact strings "on"/"off" (invalid values are
dropped), then overwrite the pending map entry (latest wins) and enqueue
the actuator for processing unless it is already queued. -/
def instanceMqttCallback (topicToActuatorMap : String → Option AId)
    (s : C2State) (topic commandValue : String) : C2State :=
  match topicToActuatorMap topic with
  | none => s
  | some targetActuator =>
    if commandValue ≠ "on" ∧ commandValue ≠ "off" then s
    else
      let s1 := { s with pending := fun x =>
        if x = targetActuator then some commandValue else s.pending x }
      if targetActuator ∈ s1.procSet then s1
      else { s1 with
        procQueue := s1.procQueue ++ [targetActuator]
        procSet := targetActuator :: s1.procSet }

/-- The PROCESS_COMMANDS case of controller2's `loop()` (lines 451-505):
dequeue one actuator (if any), read its current pending-map entry, execute
it; on success record the payload and enqueue one readback; in both cases
erase the map entry and transition to PUBLISH_DATA.  `ts` is the NTP
timestamp string obtained for the readback. -/
def processCommandsStep (ts : String) (s : C2State) : C2State :=
  match s.procQueue with
  | [] => { s with fsm := FsmState.WAIT }
  | actuatorToProcess :: restQueue =>
    let s1 := { s with
      procQueue := restQueue
      procSet := s.procSet.erase actuatorToProcess }
    let latestPayload := (s1.pending actuatorToProcess).getD ""
    let r := executeDeviceCommand (s1.actuators actuatorToProcess) latestPayload
    let s2 :=
      if r.fst then
        let act := setLastSuccessfulPayload r.snd latestPayload
        { s1 with
          actuators := updateAt s1.actuators actuatorToProcess act
          publishQueue := s1.publishQueue ++
            [⟨act.readbackTopic, act.readbackUUID, latestPayload, ts,
              some actuatorToProcess, none⟩] }
      else
        { s1 with actuators := updateAt s1.actuators actuatorToProcess r.snd }
    { s2 with
      pending := fun x => if x = actuatorToProcess then none else s2.pending x
      fsm := FsmState.PUBLISH_DATA }

/-- controller2's checkPeriodicRepublishing (lines 238-263), iterating over
the actuator list `ids`: the first actuator whose no-publish timeout has
occurred stores `NOPUBLISH_TIMEOUT` and sets the FSM state to RESTART,
returning immediately; otherwise each actuator due for republishing with a
recorded state gets one periodic readback enqueued. -/
def checkPeriodicRepublishing (now : Nat) (ntpTimeSet : Bool) (nowIso : String)
    (ids : List AId) (s : C2State) : C2State :=
  match ids with
  | [] => s
  | a :: rest =>
    let actuator := s.actuators a
    if hasNoPublishTimeoutOccurred actuator now then
      { s with
        prefs := storeRestartReason s.prefs RestartReason.NOPUBLISH_TIMEOUT
          ntpTimeSet nowIso
        fsm := FsmState.RESTART }
    else
      let s1 :=
        if isTimeToRepublish actuator now && isLastStateSet actuator then
          { s with publishQueue := s.publishQueue ++
            [⟨actuator.readbackTopic, actuator.readbackUUID,
              actuator.lastSuccessfulPayload, nowIso, some a, none⟩] }
        else s
      checkPeriodicRepublishing now ntpTimeSet nowIso rest s1

/-- The WAIT case of controller2's `loop()` (lines 553-570): connectivity
first, then pending commands, then the publish queue; otherwise run
checkPeriodicRepublishing and then assign `currentState = WAIT` — this
final assignment is unconditional in the source and overwrites any RESTART
transition made inside checkPeriodicRepublishing. -/
def c2WaitStep (wifiConnected mqttConnected : Bool) (now : Nat)
    (ntpTimeSet : Bool) (nowIso : String) (ids : List AId)
    (s : C2State) : C2State :=
  if !wifiConnected then { s with fsm := FsmState.CONNECT_WIFI }
  else if !mqttConnected then { s with fsm := FsmState.CONNECT_MQTT }
  else if !s.procQueue.isEmpty then { s with fsm := FsmState.PROCESS_COMMANDS }
  else if !s.publishQueue.isEmpty then { s with fsm := FsmState.PUBLISH_DATA }
  else
    let s1 := checkPeriodicRepublishing now ntpTimeSet nowIso ids s
    { s1 with fsm := FsmState.WAIT }

/-- UniqueQueue (include/utils/UniqueQueue.h): a FIFO queue backed by a
tracking set that prevents duplicate entries. -/
structure UQ (α : Type) where
  queue : List α
  tracking : List α

/-- UniqueQueue::tryEnqueue: no-op returning false when the item is already
tracked; otherwise pushes it to the back of the queue and into the set. -/
def tryEnqueue {α : Type} [DecidableEq α] (q : UQ α) (item : α) :
    Bool × UQ α :=
  if item ∈ q.tracking then (false, q)
  else (true, ⟨q.queue ++ [item], item :: q.tracking⟩)

/-- UniqueQueue::dequeue: pops the front item and erases it from the
tracking set; the source requires the caller to check `empty()` first, so
the empty case is modelled as `none`. -/
def dequeue {α : Type} [DecidableEq α] (q : UQ α) : Option (α × UQ α) :=
  match q.queue with
  | [] => none
  | item :: rest => some (item, ⟨rest, q.tracking.erase item⟩)

/-- One external operation on a UniqueQueue. -/
inductive UQOp (α : Type) where
  | enq : α → UQOp α
  | deq : UQOp α

/-- Apply one operation to a UniqueQueue (a `deq` on an empty queue is a
no-op, matching the caller-side `empty()` guard in the firmware). -/
def applyUQOp {α : Type} [DecidableEq α] (q : UQ α) : UQOp α → UQ α
  | .enq x => (tryEnqueue q x).snd
  | .deq =>
    match dequeue q with
    | none => q
    | some (_, q1) => q1

/-- Run a sequence of operations starting from the empty UniqueQueue. -/
def runUQ {α : Type} [DecidableEq α] (ops : List (UQOp α)) : UQ α :=
  ops.foldl applyUQOp ⟨[], []⟩

/-- SENSOR_PUBLISH_FUDGE_FACTOR from include/sensors/SensorPoint.h. -/
def sensorPublishFudgeFactor : Nat := 100

/-- The scheduling state of one SensorPoint
(include/sensors/SensorPoint.h). -/
structure SensorSched where
  timeNeededReadMs : Nat
  lastReadAttemptMs : Nat
  lastPublishTimeMs : Nat
  publishIntervalMs : Nat
  mainLoopDelayMs : Nat
  deriving DecidableEq, Repr

/-- SensorPoint::needToRead (SensorPoint.h lines 50-69): past the publish
interval only the retry gate applies; before it, eligibility requires both
closeness to the publish moment and the retry gate. -/
def needToRead (s : SensorSched) (currentTimeMs : Nat) : Bool :=
  let timeSinceLastPublish := usub currentTimeMs s.lastPublishTimeMs
  if timeSinceLastPublish ≥ s.publishIntervalMs then
    decide (usub currentTimeMs s.lastReadAttemptMs ≥ s.timeNeededReadMs)
  else
    let timeUntilNextPublish := s.publishIntervalMs - timeSinceLastPublish
    let closeToPublishTime := decide (timeUntilNextPublish ≤
      s.timeNeededReadMs + s.mainLoopDelayMs + sensorPublishFudgeFactor)
    let safeToRetryRead := decide (usub currentTimeMs s.lastReadAttemptMs ≥
      s.timeNeededReadMs)
    closeToPublishTime && safeToRetryRead

/-- SensorPoint::updateLastReadAttempt. -/
def updateLastReadAttempt (s : SensorSched) (currentTimeMs : Nat) :
    SensorSched :=
  { s with lastReadAttemptMs := currentTimeMs }

/-- SensorPoint::updateLastPublishTime. -/
def updateLastPublishTime (s : SensorSched) (currentTimeMs : Nat) :
    SensorSched :=
  { s with lastPublishTimeMs := currentTimeMs }

/-- SensorPublishQueue (include/utils/SensorPublishQueue.h): the outbound
FIFO together with the per-sensor pending set tracking which sensors have
an unpublished reading in flight. -/
structure SPQ where
  queue : List PublishData
  sensorsWithPendingData : List SId

/-- SensorPublishQueue::queueForPublish: push the item and, when it carries
a source sensor, insert that sensor into the pending set. -/
def queueForPublish (q : SPQ) (data : PublishData) : SPQ :=
  { queue := q.queue ++ [data]
    sensorsWithPendingData :=
      match data.sourceSensor with
      | some s => q.sensorsWithPendingData.insert s
      | none => q.sensorsWithPendingData }

/-- SensorPublishQueue::dequeueForPublish: pop the front item; the pending
set is not touched.  The empty case (guarded by `empty()` at every call
site) is modelled as `none`. -/
def dequeueForPublish (q : SPQ) : Option (PublishData × SPQ) :=
  match q.queue with
  | [] => none
  | item :: rest => some (item, { q with queue := rest })

/-- SensorPublishQueue::markPublishComplete: erase the item's source sensor
(if any) from the pending set. -/
def markPublishComplete (q : SPQ) (item : PublishData) : SPQ :=
  match item.sourceSensor with
  | some s =>
    { q with sensorsWithPendingData := q.sensorsWithPendingData.erase s }
  | none => q

/-- SensorPublishQueue::hasPendingData. -/
def hasPendingData (q : SPQ) (sensor : SId) : Bool :=
  decide (sensor ∈ q.sensorsWithPendingData)

/-- A single sensor reading as returned by SensorPoint::getAllReadings
(struct SensorReading in SensorPoint.h). -/
structure SensorReading where
  topic : String
  value : String
  timestamp : String
  uuid : String

/-- The global mutable state of controller3 (controller3/src/main.cpp):
the sensor heap, the duplicate-free read queue, the publish queue with its
pending set, the persistent preferences store and the FSM state. -/
structure C3State where
  sensors : SId → SensorSched
  readQueue : UQ SId
  pubQ : SPQ
  prefs : Preferences
  fsm : FsmState

/-- controller3's checkSensorsNeedingRead (lines 95-106): each sensor that
has no pending unpublished data and whose needToRead predicate holds is
offered to the read queue (tryEnqueue deduplicates). -/
def checkSensorsNeedingRead (now : Nat) (ids : List SId) (st : C3State) :
    C3State :=
  ids.foldl (fun acc sensor =>
    if !hasPendingData acc.pubQ sensor && needToRead (acc.sensors sensor) now
    then { acc with readQueue := (tryEnqueue acc.readQueue sensor).snd }
    else acc) st

/-- The READ_SENSORS case of controller3's `loop()` (lines 320-360):
dequeue one sensor (if any), stamp its last read attempt, read it; on a
successful read queue every returned reading (tagged with the source
sensor) for publishing; always transition to WAIT.  The physical read
outcome and the readings it yields are inputs (`readOk`, `readings`). -/
def readSensorsStep (now : Nat) (readOk : Bool)
    (readings : List SensorReading) (st : C3State) : C3State :=
  match dequeue st.readQueue with
  | none => { st with fsm := FsmState.WAIT }
  | some (sensor, rq) =>
    let st1 := { st with
      readQueue := rq
      sensors := updateAt st.sensors sensor
        (updateLastReadAttempt (st.sensors sensor) now) }
    if readOk then
      let st2 := readings.foldl (fun acc r =>
        let pub : PublishData :=
          ⟨r.topic, r.uuid, r.value, r.timestamp, none, some sensor⟩
        { acc with pubQ := queueForPublish acc.pubQ pub }) st1
      { st2 with fsm := FsmState.WAIT }
    else
      { st1 with fsm := FsmState.WAIT }

/-- The PUBLISH_DATA case of controller3's `loop()` (lines 362-400): abort
to CONNECT_MQTT when the transport is down; otherwise dequeue one item and
attempt the send (`sendOk` is the transport's verdict): on success stamp
the source sensor's last publish time and mark the publish complete; on
failure the item is simply dropped; always transition to WAIT. -/
def publishDataStep (mqttConnected sendOk : Bool) (now : Nat)
    (st : C3State) : C3State :=
  if !mqttConnected then { st with fsm := FsmState.CONNECT_MQTT }
  else
    match dequeueForPublish st.pubQ with
    | none => { st with fsm := FsmState.WAIT }
    | some (item, q) =>
      if sendOk then
        let sensors1 :=
          match item.sourceSensor with
          | some s => updateAt st.sensors s
            (updateLastPublishTime (st.sensors s) now)
          | none => st.sensors
        { st with
          sensors := sensors1
          pubQ := markPublishComplete q item
          fsm := FsmState.WAIT }
      else
        { st with pubQ := q, fsm := FsmState.WAIT }

/-- The PUBLISH_BOOT_STATUS case of controller3's `loop()` (lines 288-318):
queue one restart-reason item; such items carry no source back-reference
(constructed with the general PublishData constructor). -/
def publishBootStatusStep (topic uuid value ts : String) (st : C3State) :
    C3State :=
  { st with
    pubQ := queueForPublish st.pubQ ⟨topic, uuid, value, ts, none, none⟩
    fsm := FsmState.READ_SENSORS }

/-- The operations of controller3's steady-state loop that touch the read
queue or the publish queue, with their external inputs. -/
inductive C3Op where
  | checkRead : Nat → List SId → C3Op
  | readSensors : Nat → Bool → List SensorReading → C3Op
  | publishData : Bool → Bool → Nat → C3Op
  | publishBootStatus : String → String → String → String → C3Op

/-- Apply one controller3 operation. -/
def applyC3Op (st : C3State) : C3Op → C3State
  | .checkRead now ids => checkSensorsNeedingRead now ids st
  | .readSensors now readOk readings => readSensorsStep now readOk readings st
  | .publishData mqttConnected sendOk now =>
    publishDataStep mqttConnected sendOk now st
  | .publishBootStatus topic uuid value ts =>
    publishBootStatusStep topic uuid value ts st

/-- Run a sequence of controller3 operations. -/
def runC3 (st : C3State) (ops : List C3Op) : C3State :=
  ops.foldl applyC3Op st

/-- The WAIT case of controller3's `loop()` (lines 423-447): connectivity
first, then the periodic-maintenance interval, then the publish queue,
then sensor read-need (running checkSensorsNeedingRead before testing the
read queue); otherwise remain in WAIT. -/
def c3WaitStep (wifiConnected mqttConnected : Bool)
    (now lastPeriodicCheck periodicChecksIntervalMs : Nat)
    (ids : List SId) (st : C3State) : C3State :=
  if !wifiConnected then { st with fsm := FsmState.CONNECT_WIFI }
  else if !mqttConnected then { st with fsm := FsmState.CONNECT_MQTT }
  else if usub now lastPeriodicCheck ≥ periodicChecksIntervalMs then
    { st with fsm := FsmState.OPERATIONAL_PERIODIC_CHECKS }
  else if !st.pubQ.queue.isEmpty then { st with fsm := FsmState.PUBLISH_DATA }
  else
    let st1 := checkSensorsNeedingRead now ids st
    if !st1.readQueue.queue.isEmpty then
      { st1 with fsm := FsmState.READ_SENSORS }
    else
      { st1 with fsm := FsmState.WAIT }

/-- Well-formedness of a UniqueQueue: both containers are duplicate-free
and the tracking set holds exactly the queued items. -/
def UQWF {α : Type} (q : UQ α) : Prop :=
  q.queue.Nodup ∧ q.tracking.Nodup ∧ ∀ x, x ∈ q.tracking ↔ x ∈ q.queue

/-- A sensor marked pending whose in-flight reading has been lost: it is in
the pending set, no queued item references it, and it is not in the read
queue. -/
def starved (st : C3State) (s : SId) : Prop :=
  s ∈ st.pubQ.sensorsWithPendingData
  ∧ (∀ item ∈ st.pubQ.queue, item.sourceSensor ≠ some s)
  ∧ s ∉ st.readQueue.queue
  ∧ s ∉ st.readQueue.tracking

/-- Concrete topic map fixture: one actuator (pointer 0) commanded on
topic "w". -/
def c1Look : String → Option AId :=
  fun topic => if topic = "w" then some 0 else none

/-- Concrete controller2 boot state fixture: one actuator, everything
empty. -/
def c1S0 : C2State :=
  ⟨fun _ => mkActuator 4 0 "A" "w" "rt" "ru" 60000 0,
    fun _ => none, [], [], [], ⟨none, none⟩, FsmState.WAIT⟩

/-- Concrete controller2 state fixture for the dead-man's-switch check: one
actuator with a 1000 ms silence threshold that last published at 0 ms. -/
def c4StW : C2State :=
  ⟨fun _ => mkActuator 4 0 "A" "w" "rt" "ru" 60000 1000,
    fun _ => none, [], [], [], ⟨none, none⟩, FsmState.WAIT⟩

/-- Concrete controller3 state fixture with a non-empty publish queue. -/
def c2StW : C3State :=
  ⟨fun _ => ⟨100, 0, 0, 10000, 50⟩, ⟨[], []⟩,
    ⟨[⟨"t", "u", "v", "T", none, none⟩], []⟩, ⟨none, none⟩, FsmState.WAIT⟩

/-- Concrete controller3 state fixture: sensor 0 has pending unpublished
data and is due for a read. -/
def c9StW : C3State :=
  ⟨fun _ => ⟨100, 0, 0, 10000, 50⟩, ⟨[], []⟩, ⟨[], [0]⟩,
    ⟨none, none⟩, FsmState.WAIT⟩

/-- Concrete controller3 state fixture: the single queued publish item
originates from sensor 0, which is tracked as pending. -/
def c10StW : C3State :=
  ⟨fun _ => ⟨100, 0, 0, 10000, 50⟩, ⟨[], []⟩,
    ⟨[⟨"t", "u", "v", "T", none, some 0⟩], [0]⟩, ⟨none, none⟩, FsmState.WAIT⟩

/-! Theorems. -/

/-- Claim C5: consume (getStoredRestartEvent) clears the persisted entry
before returning; a second consume before any new store returns the default
record (reason UNKNOWN_RESET, empty timestamp); and the first read after a
store delivers exactly the stored record. -/
theorem c5_at_most_once_restart_delivery (prefs : Preferences)
    (r : RestartReason) (ntpTimeSet : Bool) (nowIso : String) :
    ((getStoredRestartEvent prefs).snd.reason = none
      ∧ (getStoredRestartEvent prefs).snd.timestamp = none)
    ∧ (getStoredRestartEvent (getStoredRestartEvent prefs).snd).fst =
        ⟨RestartReason.UNKNOWN_RESET, ""⟩
    ∧ (getStoredRestartEvent
        (storeRestartReason prefs r ntpTimeSet nowIso)).fst =
        ⟨r, if ntpTimeSet then nowIso else ""⟩ := by
  refine ⟨⟨rfl, rfl⟩, rfl, ?_⟩
  cases r <;> rfl

/-- Claim C3: executeDeviceCommand accepts exactly the payloads equal to
"on" or "off" case-insensitively; on acceptance it writes the converted
level to the pin; on rejection it returns false and leaves the actuator
(and its physical output) entirely unchanged. -/
theorem c3_command_validation (a : Actuator) (p : String) :
    ((executeDeviceCommand a p).fst = true ↔
      (eqIgnoreCase p "on" = true ∨ eqIgnoreCase p "off" = true))
    ∧ ((executeDeviceCommand a p).fst = true →
        (executeDeviceCommand a p).snd =
          { a with pinLevel := payloadToHardwareState p })
    ∧ ((executeDeviceCommand a p).fst = false →
        (executeDeviceCommand a p).snd = a) := by
  unfold executeDeviceCommand
  by_cases h : (eqIgnoreCase p "on" || eqIgnoreCase p "off") = true
  · rw [if_pos h]
    simp only [Bool.or_eq_true] at h
    exact ⟨by simp [h], fun _ => rfl, by simp⟩
  · rw [if_neg h]
    simp only [Bool.or_eq_true] at h
    push_neg at h
    refine ⟨by simp [h.1, h.2], by simp, fun _ => rfl⟩

/-- Witness for C3 at the spec's edge case: the payload "ON " (trailing
space) is rejected and the actuator is left unchanged. -/
theorem c3_command_validation_witness :
    (executeDeviceCommand (mkActuator 4 0 "A" "w" "rt" "ru" 60000 0)
      "ON ").snd = mkActuator 4 0 "A" "w" "rt" "ru" 60000 0
    ∧ (executeDeviceCommand (mkActuator 4 0 "A" "w" "rt" "ru" 60000 0)
      "ON ").fst = false :=
  ⟨(c3_command_validation (mkActuator 4 0 "A" "w" "rt" "ru" 60000 0)
      "ON ").2.2 (by decide), by decide⟩

/-- Claim C7 counterexample: a sensor far from its publish deadline
(9000 ms away, threshold 250 ms) whose retry gate holds (no read attempt
for 1000 ms ≥ 100 ms read duration) is nevertheless not read-eligible, so
eligibility in the far regime is not the retry gate alone as claimed. -/
theorem c7_counterexample :
    needToRead ⟨100, 0, 0, 10000, 50⟩ 1000 = false
    ∧ usub 1000 0 ≥ 100
    ∧ usub 1000 0 < 10000
    ∧ 10000 - usub 1000 0 >
        100 + 50 + sensorPublishFudgeFactor := by
  refine ⟨by decide, by decide, by decide, by decide⟩

/-- Claim C7 amended: needToRead is governed by two regimes split at the
publish deadline — once the publish interval has elapsed, eligibility is
the retry gate alone; before the deadline, eligibility requires both the
deadline-closeness test and the retry gate (in particular, far before the
deadline a sensor is never eligible). -/
theorem c7_two_regime_read_scheduling (s : SensorSched) (now : Nat) :
    needToRead s now = true ↔
      (usub now s.lastReadAttemptMs ≥ s.timeNeededReadMs
        ∧ (usub now s.lastPublishTimeMs ≥ s.publishIntervalMs
          ∨ s.publishIntervalMs - usub now s.lastPublishTimeMs ≤
              s.timeNeededReadMs + s.mainLoopDelayMs +
                sensorPublishFudgeFactor)) := by
  by_cases h : usub now s.lastPublishTimeMs ≥ s.publishIntervalMs
  · simp only [needToRead, if_pos h, decide_eq_true_eq]
    tauto
  · simp only [needToRead, if_neg h, Bool.and_eq_true, decide_eq_true_eq]
    tauto

/-- Claim C8: at the failing input — an actuator whose readback the FSM
confirmed published at 100000 ms (stamping lastPublishTimeMillis), with a
60000 ms republish interval, queried at 110000 ms — the implemented
isTimeToRepublish returns true (it compares against the never-stamped
lastRepublishCheckTimeMillis, still 0), while the documented predicate
now - lastPublishTimeMillis ≥ interval is false. -/
theorem c8_republish_timing_divergence :
    isTimeToRepublish
      (setLastPublishTimeMillis
        (mkActuator 4 0 "A" "w" "rt" "ru" 60000 0) 100000) 110000 = true
    ∧ isTimeToRepublishClaimed
      (setLastPublishTimeMillis
        (mkActuator 4 0 "A" "w" "rt" "ru" 60000 0) 100000) 110000 = false
    ∧ (setLastPublishTimeMillis
        (mkActuator 4 0 "A" "w" "rt" "ru" 60000 0)
        100000).lastRepublishCheckTimeMillis = 0 := by
  refine ⟨by decide, by decide, by decide⟩

/-- Claim C4: at the failing input — controller2 in WAIT, links up, both
queues empty, one actuator with maxSilenceMs 1000 and no publish for
5000 ms — the timeout predicate holds and the WAIT-phase check stores
NOPUBLISH_TIMEOUT, but the FSM ends the tick in WAIT, not RESTART: the
RESTART transition made inside checkPeriodicRepublishing is overwritten by
the unconditional currentState assignment in the WAIT case. -/
theorem c4_deadman_switch_restart_overwritten :
    hasNoPublishTimeoutOccurred (c4StW.actuators 0) 5000 = true
    ∧ (c2WaitStep true true 5000 true "T" [0] c4StW).prefs.reason =
        some RestartReason.NOPUBLISH_TIMEOUT.toCode
    ∧ (checkPeriodicRepublishing 5000 true "T" [0] c4StW).fsm =
        FsmState.RESTART
    ∧ (c2WaitStep true true 5000 true "T" [0] c4StW).fsm = FsmState.WAIT
    ∧ FsmState.WAIT ≠ FsmState.RESTART := by
  refine ⟨by decide, by decide, by decide, by decide, by decide⟩

/-- Well-formedness of a UniqueQueue is preserved by every operation. -/
theorem uqwf_applyOp {α : Type} [DecidableEq α] (q : UQ α) (op : UQOp α)
    (h : UQWF q) : UQWF (applyUQOp q op) := by
  obtain ⟨hq, ht, hm⟩ := h
  cases op with
  | enq x =>
    simp only [applyUQOp, tryEnqueue]
    by_cases hx : x ∈ q.tracking
    · rw [if_pos hx]
      exact ⟨hq, ht, hm⟩
    · rw [if_neg hx]
      have hxq : x ∉ q.queue := fun hc => hx ((hm x).mpr hc)
      refine ⟨?_, List.nodup_cons.mpr ⟨hx, ht⟩, ?_⟩
      · simp [List.nodup_append, hq, hxq, List.disjoint_singleton]
      · intro y
        simp only [List.mem_cons, List.mem_append, List.mem_singleton, hm y]
        tauto
  | deq =>
    obtain ⟨qu, tr⟩ := q
    cases qu with
    | nil => exact ⟨hq, ht, hm⟩
    | cons a rest =>
      simp only [applyUQOp, dequeue]
      obtain ⟨haq, hrest⟩ := List.nodup_cons.mp hq
      refine ⟨hrest, ht.erase a, ?_⟩
      intro y
      rw [ht.mem_erase_iff]
      simp only [hm y, List.mem_cons]
      constructor
      · rintro ⟨hne, hya | hyr⟩
        · exact absurd hya hne
        · exact hyr
      · intro hyr
        exact ⟨fun he => haq (he ▸ hyr), Or.inr hyr⟩

/-- Well-formedness propagates along any run of operations. -/
theorem uqwf_foldl {α : Type} [DecidableEq α] :
    ∀ (ops : List (UQOp α)) (q : UQ α), UQWF q →
      UQWF (ops.foldl applyUQOp q) := by
  intro ops
  induction ops with
  | nil => exact fun q h => h
  | cons op rest ih => exact fun q h => ih _ (uqwf_applyOp q op h)

/-- Well-formedness holds for every queue reachable from the empty one. -/
theorem uqwf_runUQ {α : Type} [DecidableEq α] (ops : List (UQOp α)) :
    UQWF (runUQ ops) :=
  uqwf_foldl ops ⟨[], []⟩ ⟨List.nodup_nil, List.nodup_nil, by simp⟩

/-- Claim C6: over every sequence of tryEnqueue/dequeue operations the
queue never holds an item twice; tryEnqueue of an already-tracked item
returns false changing nothing; and dequeue removes the front item from
both the queue and the tracking set in the same step. -/
theorem c6_unique_queue_invariant {α : Type} [DecidableEq α]
    (ops : List (UQOp α)) (x a : α) (rest : List α) :
    (runUQ ops).queue.Nodup
    ∧ (x ∈ (runUQ ops).tracking →
        tryEnqueue (runUQ ops) x = (false, runUQ ops))
    ∧ ((runUQ ops).queue = a :: rest →
        dequeue (runUQ ops) =
          some (a, ⟨rest, (runUQ ops).tracking.erase a⟩)) := by
  have h := uqwf_runUQ ops
  refine ⟨h.1, ?_, ?_⟩
  · intro hx
    simp [tryEnqueue, hx]
  · intro hq
    rw [dequeue, hq]

/-- Witness for C6: after enqueuing 1, re-enqueuing 1, enqueuing 2 and one
dequeue, the queue is duplicate-free and a further re-enqueue of the
tracked item 2 is refused without change. -/
theorem c6_unique_queue_invariant_witness :
    (runUQ [UQOp.enq 1, UQOp.enq 1, UQOp.enq 2, UQOp.deq]).queue.Nodup
    ∧ tryEnqueue (runUQ [UQOp.enq 1, UQOp.enq 1, UQOp.enq 2, UQOp.deq]) 2 =
        (false, runUQ [UQOp.enq 1, UQOp.enq 1, UQOp.enq 2, UQOp.deq]) := by
  have h := c6_unique_queue_invariant
    [UQOp.enq 1, UQOp.enq 1, UQOp.enq 2, UQOp.deq] 2 0 []
  exact ⟨h.1, h.2.1 (by decide)⟩

/-- Characterization of the controller2 WAIT dispatcher: connectivity
first, then commands, then publish; otherwise the tick always ends in WAIT
(never RESTART, never OPERATIONAL_PERIODIC_CHECKS). -/
theorem c2Wait_fsm_characterization (wifi mqtt : Bool) (now : Nat)
    (ntpTimeSet : Bool) (nowIso : String) (ids : List AId) (s : C2State) :
    ((c2WaitStep wifi mqtt now ntpTimeSet nowIso ids s).fsm =
        FsmState.CONNECT_WIFI ↔ wifi = false)
    ∧ ((c2WaitStep wifi mqtt now ntpTimeSet nowIso ids s).fsm =
        FsmState.CONNECT_MQTT ↔ wifi = true ∧ mqtt = false)
    ∧ ((c2WaitStep wifi mqtt now ntpTimeSet nowIso ids s).fsm =
        FsmState.PROCESS_COMMANDS ↔
          wifi = true ∧ mqtt = true ∧ s.procQueue ≠ [])
    ∧ ((c2WaitStep wifi mqtt now ntpTimeSet nowIso ids s).fsm =
        FsmState.PUBLISH_DATA ↔
          wifi = true ∧ mqtt = true ∧ s.procQueue = [] ∧
            s.publishQueue ≠ [])
    ∧ ((c2WaitStep wifi mqtt now ntpTimeSet nowIso ids s).fsm =
        FsmState.WAIT ↔
          wifi = true ∧ mqtt = true ∧ s.procQueue = [] ∧
            s.publishQueue = [])
    ∧ (c2WaitStep wifi mqtt now ntpTimeSet nowIso ids s).fsm ≠
        FsmState.RESTART
    ∧ (c2WaitStep wifi mqtt now ntpTimeSet nowIso ids s).fsm ≠
        FsmState.OPERATIONAL_PERIODIC_CHECKS := by
  cases wifi <;> cases mqtt <;>
    rcases hq : s.procQueue with _ | ⟨qa, qrest⟩ <;>
    rcases hp : s.publishQueue with _ | ⟨pa, prest⟩ <;>
    simp [c2WaitStep, hq, hp]

/-- Characterization of the controller3 WAIT dispatcher: connectivity
first, then the periodic-maintenance interval, then publish, then sensor
read-need. -/
theorem c3Wait_fsm_characterization (wifi mqtt : Bool)
    (now lpc pint : Nat) (ids : List SId) (st : C3State) :
    ((c3WaitStep wifi mqtt now lpc pint ids st).fsm =
        FsmState.CONNECT_WIFI ↔ wifi = false)
    ∧ ((c3WaitStep wifi mqtt now lpc pint ids st).fsm =
        FsmState.CONNECT_MQTT ↔ wifi = true ∧ mqtt = false)
    ∧ ((c3WaitStep wifi mqtt now lpc pint ids st).fsm =
        FsmState.OPERATIONAL_PERIODIC_CHECKS ↔
          wifi = true ∧ mqtt = true ∧ usub now lpc ≥ pint)
    ∧ ((c3WaitStep wifi mqtt now lpc pint ids st).fsm =
        FsmState.PUBLISH_DATA ↔
          wifi = true ∧ mqtt = true ∧ usub now lpc < pint ∧
            st.pubQ.queue ≠ [])
    ∧ ((c3WaitStep wifi mqtt now lpc pint ids st).fsm =
        FsmState.READ_SENSORS ↔
          wifi = true ∧ mqtt = true ∧ usub now lpc < pint ∧
            st.pubQ.queue = [] ∧
            (checkSensorsNeedingRead now ids st).readQueue.queue ≠ [])
    ∧ ((c3WaitStep wifi mqtt now lpc pint ids st).fsm =
        FsmState.WAIT ↔
          wifi = true ∧ mqtt = true ∧ usub now lpc < pint ∧
            st.pubQ.queue = [] ∧
            (checkSensorsNeedingRead now ids st).readQueue.queue = []) := by
  cases wifi <;> cases mqtt <;>
    by_cases hpc : usub now lpc ≥ pint <;>
    rcases hq : st.pubQ.queue with _ | ⟨pa, prest⟩ <;>
    rcases hr : (checkSensorsNeedingRead now ids st).readQueue.queue with
      _ | ⟨ra, rrest⟩ <;>
    simp [c3WaitStep, hpc, hq, hr, Nat.not_le] <;>
    omega

/-- Claim C2 counterexample: controller3 in WAIT with both the publish
queue non-empty and the periodic-maintenance interval elapsed dispatches
to OPERATIONAL_PERIODIC_CHECKS, not to PUBLISH_DATA — the claimed priority
of the publish queue (3) over periodic maintenance (4) does not hold. -/
theorem c2_wait_priority_counterexample :
    (c3WaitStep true true 100000 0 60000 [] c2StW).fsm =
        FsmState.OPERATIONAL_PERIODIC_CHECKS
    ∧ c2StW.pubQ.queue ≠ []
    ∧ FsmState.OPERATIONAL_PERIODIC_CHECKS ≠ FsmState.PUBLISH_DATA := by
  refine ⟨by decide, by decide, by decide⟩

/-- Claim C2 amended: the WAIT dispatchers encode a fixed priority, but it
differs per controller — controller2: (1) WiFi, (2) MQTT, (3) pending
commands, (4) publish queue, (5) otherwise the inline periodic republish
check, always remaining in WAIT; controller3: (1) WiFi, (2) MQTT,
(3) periodic-maintenance interval, (4) publish queue, (5) sensor
read-need, else WAIT. -/
theorem c2_wait_dispatch_priority (wifi mqtt : Bool) (now : Nat)
    (ntpTimeSet : Bool) (nowIso : String) (ids : List AId) (s : C2State)
    (now3 lpc pint : Nat) (ids3 : List SId) (st3 : C3State) :
    (((c2WaitStep wifi mqtt now ntpTimeSet nowIso ids s).fsm =
        FsmState.CONNECT_WIFI ↔ wifi = false)
      ∧ ((c2WaitStep wifi mqtt now ntpTimeSet nowIso ids s).fsm =
        FsmState.CONNECT_MQTT ↔ wifi = true ∧ mqtt = false)
      ∧ ((c2WaitStep wifi mqtt now ntpTimeSet nowIso ids s).fsm =
        FsmState.PROCESS_COMMANDS ↔
          wifi = true ∧ mqtt = true ∧ s.procQueue ≠ [])
      ∧ ((c2WaitStep wifi mqtt now ntpTimeSet nowIso ids s).fsm =
        FsmState.PUBLISH_DATA ↔
          wifi = true ∧ mqtt = true ∧ s.procQueue = [] ∧
            s.publishQueue ≠ [])
      ∧ ((c2WaitStep wifi mqtt now ntpTimeSet nowIso ids s).fsm =
        FsmState.WAIT ↔
          wifi = true ∧ mqtt = true ∧ s.procQueue = [] ∧
            s.publishQueue = [])
      ∧ (c2WaitStep wifi mqtt now ntpTimeSet nowIso ids s).fsm ≠
        FsmState.RESTART
      ∧ (c2WaitStep wifi mqtt now ntpTimeSet nowIso ids s).fsm ≠
        FsmState.OPERATIONAL_PERIODIC_CHECKS)
    ∧ (((c3WaitStep wifi mqtt now3 lpc pint ids3 st3).fsm =
        FsmState.CONNECT_WIFI ↔ wifi = false)
      ∧ ((c3WaitStep wifi mqtt now3 lpc pint ids3 st3).fsm =
        FsmState.CONNECT_MQTT ↔ wifi = true ∧ mqtt = false)
      ∧ ((c3WaitStep wifi mqtt now3 lpc pint ids3 st3).fsm =
        FsmState.OPERATIONAL_PERIODIC_CHECKS ↔
          wifi = true ∧ mqtt = true ∧ usub now3 lpc ≥ pint)
      ∧ ((c3WaitStep wifi mqtt now3 lpc pint ids3 st3).fsm =
        FsmState.PUBLISH_DATA ↔
          wifi = true ∧ mqtt = true ∧ usub now3 lpc < pint ∧
            st3.pubQ.queue ≠ [])
      ∧ ((c3WaitStep wifi mqtt now3 lpc pint ids3 st3).fsm =
        FsmState.READ_SENSORS ↔
          wifi = true ∧ mqtt = true ∧ usub now3 lpc < pint ∧
            st3.pubQ.queue = [] ∧
            (checkSensorsNeedingRead now3 ids3 st3).readQueue.queue ≠ [])
      ∧ ((c3WaitStep wifi mqtt now3 lpc pint ids3 st3).fsm =
        FsmState.WAIT ↔
          wifi = true ∧ mqtt = true ∧ usub now3 lpc < pint ∧
            st3.pubQ.queue = [] ∧
            (checkSensorsNeedingRead now3 ids3 st3).readQueue.queue = [])) :=
  ⟨c2Wait_fsm_characterization wifi mqtt now ntpTimeSet nowIso ids s,
    c3Wait_fsm_characterization wifi mqtt now3 lpc pint ids3 st3⟩

/-- Enqueuing one item into a UniqueQueue does not affect the membership
of any other item, in the queue or in the tracking set. -/
theorem tryEnqueue_mem_ne {α : Type} [DecidableEq α] (q : UQ α) (i s : α)
    (hne : s ≠ i) :
    (s ∈ (tryEnqueue q i).snd.queue ↔ s ∈ q.queue)
    ∧ (s ∈ (tryEnqueue q i).snd.tracking ↔ s ∈ q.tracking) := by
  unfold tryEnqueue
  by_cases hi : i ∈ q.tracking
  · rw [if_pos hi]
    exact ⟨Iff.rfl, Iff.rfl⟩
  · rw [if_neg hi]
    constructor
    · simp [hne]
    · simp [hne]

/-- Claim C9: checkSensorsNeedingRead never enqueues a sensor that has an
unpublished reading tracked in the publish queue's pending set — for such
a sensor the read queue's membership is unchanged (and the publish queue
itself is untouched), for every state. -/
theorem c9_scheduling_safety (now : Nat) (s : SId) (ids : List SId)
    (st : C3State) (hp : hasPendingData st.pubQ s = true) :
    (checkSensorsNeedingRead now ids st).pubQ = st.pubQ
    ∧ (s ∈ (checkSensorsNeedingRead now ids st).readQueue.queue ↔
        s ∈ st.readQueue.queue)
    ∧ (s ∈ (checkSensorsNeedingRead now ids st).readQueue.tracking ↔
        s ∈ st.readQueue.tracking) := by
  induction ids generalizing st with
  | nil => exact ⟨rfl, Iff.rfl, Iff.rfl⟩
  | cons i rest ih =>
    simp only [checkSensorsNeedingRead, List.foldl_cons] at *
    by_cases hcond : (!hasPendingData st.pubQ i &&
        needToRead (st.sensors i) now) = true
    case neg =>
      rw [if_neg hcond]
      exact ih st hp
    case pos =>
      rw [if_pos hcond]
      have hcond2 := hcond
      simp only [Bool.and_eq_true, Bool.not_eq_true'] at hcond2
      obtain ⟨hpi2, _⟩ := hcond2
      have hne : s ≠ i := by
        intro he
        rw [he, hpi2] at hp
        cases hp
      have hmem := tryEnqueue_mem_ne st.readQueue i s hne
      have h1 := ih { st with readQueue := (tryEnqueue st.readQueue i).snd }
        hp
      refine ⟨h1.1, ?_, ?_⟩
      · exact h1.2.1.trans hmem.1
      · exact h1.2.2.trans hmem.2

/-- Witness for C9: sensor 0 has pending data in the fixture state, so a
scheduler pass over it leaves the (empty) read queue without it. -/
theorem c9_scheduling_safety_witness :
    (checkSensorsNeedingRead 5000 [0] c9StW).pubQ = c9StW.pubQ
    ∧ (0 ∉ (checkSensorsNeedingRead 5000 [0] c9StW).readQueue.queue) := by
  have h := c9_scheduling_safety 5000 0 [0] c9StW (by decide)
  refine ⟨h.1, ?_⟩
  intro hmem
  have := h.2.1.mp hmem
  simp [c9StW] at this

/-- A valid command for an actuator that is already queued for processing
only overwrites the pending-map entry: queue, set and all other state are
untouched. -/
theorem instanceMqttCallback_already (look : String → Option AId)
    (t : String) (A : AId) (hA : look t = some A) (v : String)
    (hv : v = "on" ∨ v = "off") (s : C2State) (hmem : A ∈ s.procSet) :
    instanceMqttCallback look s t v =
      { s with pending := fun x => if x = A then some v else s.pending x } := by
  unfold instanceMqttCallback
  rw [hA]
  have hval : ¬(v ≠ "on" ∧ v ≠ "off") := by
    rcases hv with h | h <;> simp [h]
  dsimp only
  rw [if_neg hval]
  exact if_pos hmem

/-- A valid command for an actuator that is not yet queued overwrites the
pending-map entry and appends the actuator to the queue and the set. -/
theorem instanceMqttCallback_fresh (look : String → Option AId)
    (t : String) (A : AId) (hA : look t = some A) (v : String)
    (hv : v = "on" ∨ v = "off") (s : C2State) (hmem : A ∉ s.procSet) :
    instanceMqttCallback look s t v =
      { s with
        pending := fun x => if x = A then some v else s.pending x
        procQueue := s.procQueue ++ [A]
        procSet := A :: s.procSet } := by
  unfold instanceMqttCallback
  rw [hA]
  have hval : ¬(v ≠ "on" ∧ v ≠ "off") := by
    rcases hv with h | h <;> simp [h]
  dsimp only
  rw [if_neg hval]
  exact if_neg hmem

/-- Folding a batch of valid commands for an already-queued actuator only
rewrites the pending-map entry, each command clobbering the previous. -/
theorem instanceMqttCallback_foldl (look : String → Option AId)
    (t : String) (A : AId) (hA : look t = some A) :
    ∀ (cs : List String), (∀ v ∈ cs, v = "on" ∨ v = "off") →
    ∀ (s : C2State), A ∈ s.procSet →
      cs.foldl (fun acc v => instanceMqttCallback look acc t v) s =
        { s with pending := fun x =>
            if x = A then cs.foldl (fun _ v => some v) (s.pending A)
            else s.pending x } := by
  intro cs
  induction cs with
  | nil =>
    intro _ s _
    have hfun : (fun x => if x = A then s.pending A else s.pending x) =
        s.pending := by
      funext x
      by_cases hx : x = A <;> simp [hx]
    simp only [List.foldl_nil, hfun]
  | cons c cs ih =>
    intro hv s hmem
    simp only [List.foldl_cons]
    rw [instanceMqttCallback_already look t A hA c (hv c (by simp)) s hmem]
    rw [ih (fun v hv2 => hv v (by simp [hv2]))
      { s with pending := fun x => if x = A then some c else s.pending x }
      hmem]
    congr 1
    funext x
    by_cases hx : x = A <;> simp [hx]

/-- Repeatedly overwriting an option slot keeps only the last value. -/
theorem foldl_some_getLastD (l : List String) :
    ∀ c : String,
      l.foldl (fun _ v => some v) (some c) = some (l.getLastD c) := by
  induction l with
  | nil => intro c; rfl
  | cons v vs ih =>
    intro c
    simp only [List.foldl_cons, List.getLastD_cons]
    exact ih v

/-- Evaluation of one PROCESS_COMMANDS tick when exactly one actuator is
queued and its pending payload is valid. -/
theorem processCommandsStep_single (ts : String) (s : C2State) (A : AId)
    (applied : String) (hq : s.procQueue = [A])
    (hpend : s.pending A = some applied)
    (happ : applied = "on" ∨ applied = "off") :
    processCommandsStep ts s = { s with
      procQueue := []
      procSet := s.procSet.erase A
      actuators := updateAt s.actuators A
        (setLastSuccessfulPayload
          { s.actuators A with
            pinLevel := payloadToHardwareState applied } applied)
      publishQueue := s.publishQueue ++
        [⟨(s.actuators A).readbackTopic, (s.actuators A).readbackUUID,
          applied, ts, some A, none⟩]
      pending := fun x => if x = A then none else s.pending x
      fsm := FsmState.PUBLISH_DATA } := by
  obtain ⟨acts, pend, pq, ps, pub, pr, f⟩ := s
  subst hq
  have hexec : executeDeviceCommand (acts A) applied =
      (true, { acts A with pinLevel := payloadToHardwareState applied }) := by
    rcases happ with h | h <;> rw [h] <;> rfl
  simp only [processCommandsStep]
  have hpend2 : pend A = some applied := hpend
  rw [hpend2]
  simp only [Option.getD_some]
  rw [hexec]
  rfl

/-- Claim C1: latest-wins command coalescing.  Starting from a state with
no queued actuator, a sequence of valid commands for actuator A on its
command topic leaves a single queue entry and the pending map holding the
last payload; the next PROCESS_COMMANDS tick applies exactly that payload
to the pin, records it, removes the map entry whether or not it succeeded,
and enqueues exactly one readback for the whole sequence. -/
theorem c1_latest_wins_coalescing (look : String → Option AId) (t : String)
    (A : AId) (hA : look t = some A) (c0 : String) (rest : List String)
    (hv : ∀ v ∈ c0 :: rest, v = "on" ∨ v = "off") (s0 : C2State)
    (hq : s0.procQueue = []) (hs : s0.procSet = []) (ts : String) :
    ((c0 :: rest).foldl
        (fun acc v => instanceMqttCallback look acc t v) s0).pending A =
      some (rest.getLastD c0)
    ∧ ((c0 :: rest).foldl
        (fun acc v => instanceMqttCallback look acc t v) s0).procQueue = [A]
    ∧ ((c0 :: rest).foldl
        (fun acc v => instanceMqttCallback look acc t v) s0).publishQueue =
      s0.publishQueue
    ∧ (processCommandsStep ts ((c0 :: rest).foldl
        (fun acc v => instanceMqttCallback look acc t v) s0)).pending A =
      none
    ∧ (processCommandsStep ts ((c0 :: rest).foldl
        (fun acc v => instanceMqttCallback look acc t v) s0)).procQueue = []
    ∧ (processCommandsStep ts ((c0 :: rest).foldl
        (fun acc v => instanceMqttCallback look acc t v) s0)).fsm =
      FsmState.PUBLISH_DATA
    ∧ ((processCommandsStep ts ((c0 :: rest).foldl
        (fun acc v => instanceMqttCallback look acc t v) s0)).actuators
          A).pinLevel = payloadToHardwareState (rest.getLastD c0)
    ∧ ((processCommandsStep ts ((c0 :: rest).foldl
        (fun acc v => instanceMqttCallback look acc t v) s0)).actuators
          A).lastSuccessfulPayload = rest.getLastD c0
    ∧ (processCommandsStep ts ((c0 :: rest).foldl
        (fun acc v => instanceMqttCallback look acc t v) s0)).publishQueue =
      s0.publishQueue ++
        [⟨(s0.actuators A).readbackTopic, (s0.actuators A).readbackUUID,
          rest.getLastD c0, ts, some A, none⟩] := by
  have hmem0 : A ∉ s0.procSet := by rw [hs]; exact List.not_mem_nil A
  have hstep0 := instanceMqttCallback_fresh look t A hA c0
    (hv c0 (by simp)) s0 hmem0
  have hs1 : (c0 :: rest).foldl
      (fun acc v => instanceMqttCallback look acc t v) s0 = { s0 with
      pending := fun x =>
        if x = A then rest.foldl (fun _ v => some v) (some c0)
        else s0.pending x
      procQueue := s0.procQueue ++ [A]
      procSet := A :: s0.procSet } := by
    rw [List.foldl_cons, hstep0]
    rw [instanceMqttCallback_foldl look t A hA rest
      (fun v hv2 => hv v (by simp [hv2])) _ (List.mem_cons_self A _)]
    congr 1
    funext x
    by_cases hx : x = A <;> simp [hx]
  rw [hs1]
  have hlast : rest.foldl (fun _ v => some v) (some c0) =
      some (rest.getLastD c0) :=
    foldl_some_getLastD rest c0
  have happ : rest.getLastD c0 = "on" ∨ rest.getLastD c0 = "off" :=
    hv (rest.getLastD c0) (List.getLastD_mem_cons rest c0)
  have h2 := processCommandsStep_single ts { s0 with
      pending := fun x =>
        if x = A then rest.foldl (fun _ v => some v) (some c0)
        else s0.pending x
      procQueue := s0.procQueue ++ [A]
      procSet := A :: s0.procSet } A (rest.getLastD c0)
    (by simp [hq]) (by simp [hlast]) happ
  rw [h2]
  refine ⟨by simp [hlast], by simp [hq], rfl, by simp, rfl, rfl, ?_, ?_, rfl⟩
  · simp [updateAt, setLastSuccessfulPayload]
  · simp [updateAt, setLastSuccessfulPayload]

/-- Witness for C1: sending "off" then "on" to actuator 0 before it is
processed yields pending payload "on", and one PROCESS_COMMANDS tick
publishes exactly one readback "on" and drives the pin HIGH. -/
theorem c1_latest_wins_coalescing_witness :
    ((["off", "on"]).foldl
        (fun acc v => instanceMqttCallback c1Look acc "w" v) c1S0).pending 0 =
      some "on"
    ∧ (processCommandsStep "T" ((["off", "on"]).foldl
        (fun acc v => instanceMqttCallback c1Look acc "w" v)
          c1S0)).publishQueue =
      [⟨"rt", "ru", "on", "T", some 0, none⟩]
    ∧ ((processCommandsStep "T" ((["off", "on"]).foldl
        (fun acc v => instanceMqttCallback c1Look acc "w" v)
          c1S0)).actuators 0).pinLevel = 1 := by
  have h := c1_latest_wins_coalescing c1Look "w" 0 rfl "off" ["on"]
    (by decide) c1S0 rfl rfl "T"
  exact ⟨h.1, h.2.2.2.2.2.2.2.2, h.2.2.2.2.2.2.1⟩

/-- The scheduler pass preserves starvation: a pending sensor is skipped,
everything else it does cannot reference it. -/
theorem starved_checkRead (now : Nat) (s : SId) :
    ∀ (ids : List SId) (st : C3State), starved st s →
      starved (checkSensorsNeedingRead now ids st) s := by
  intro ids
  induction ids with
  | nil => exact fun st h => h
  | cons i rest ih =>
    intro st h
    simp only [checkSensorsNeedingRead, List.foldl_cons] at *
    by_cases hcond : (!hasPendingData st.pubQ i &&
        needToRead (st.sensors i) now) = true
    case neg =>
      rw [if_neg hcond]
      exact ih st h
    case pos =>
      rw [if_pos hcond]
      have hcond2 := hcond
      simp only [Bool.and_eq_true, Bool.not_eq_true'] at hcond2
      obtain ⟨hpi2, _⟩ := hcond2
      have hne : s ≠ i := by
        intro he
        have hsp : hasPendingData st.pubQ s = true := by
          simp [hasPendingData, h.1]
        rw [he, hpi2] at hsp
        cases hsp
      obtain ⟨h1, h2, h3, h4⟩ := h
      apply ih
      refine ⟨h1, h2, ?_, ?_⟩
      · intro hmem
        exact h3 ((tryEnqueue_mem_ne st.readQueue i s hne).1.mp hmem)
      · intro hmem
        exact h4 ((tryEnqueue_mem_ne st.readQueue i s hne).2.mp hmem)

/-- Queuing readings sourced from a different sensor preserves
starvation. -/
theorem starved_pubfold (x s : SId) (hxs : x ≠ s) :
    ∀ (readings : List SensorReading) (st : C3State), starved st s →
      starved (readings.foldl (fun acc r =>
        let pub : PublishData :=
          ⟨r.topic, r.uuid, r.value, r.timestamp, none, some x⟩
        { acc with pubQ := queueForPublish acc.pubQ pub }) st) s := by
  intro readings
  induction readings with
  | nil => exact fun st h => h
  | cons r rs ih =>
    intro st h
    obtain ⟨h1, h2, h3, h4⟩ := h
    simp only [List.foldl_cons]
    apply ih
    refine ⟨?_, ?_, h3, h4⟩
    · exact List.mem_insert_iff.mpr (Or.inr h1)
    · intro it hit
      rcases List.mem_append.mp hit with hold | hnew
      · exact h2 it hold
      · rw [List.mem_singleton.mp hnew]
        intro hc
        exact hxs (Option.some.inj hc)

/-- The READ_SENSORS tick preserves starvation: the starved sensor is not
in the read queue, so it cannot be the sensor read, and all queued
readings are tagged with the sensor that was read. -/
theorem starved_readSensors (now : Nat) (readOk : Bool)
    (readings : List SensorReading) (st : C3State) (s : SId)
    (h : starved st s) : starved (readSensorsStep now readOk readings st) s := by
  obtain ⟨h1, h2, h3, h4⟩ := h
  rcases hq : st.readQueue.queue with _ | ⟨x, rest⟩
  · have hd : dequeue st.readQueue = none := by
      unfold dequeue
      rw [hq]
    simp only [readSensorsStep, hd]
    exact ⟨h1, h2, h3, h4⟩
  · have hd : dequeue st.readQueue =
        some (x, ⟨rest, st.readQueue.tracking.erase x⟩) := by
      unfold dequeue
      rw [hq]
    have hxs : x ≠ s := by
      intro he
      exact h3 (hq ▸ (he ▸ List.mem_cons_self x rest))
    have hrest : s ∉ rest := fun hc => h3 (hq ▸ List.mem_cons_of_mem x hc)
    have herase : s ∉ st.readQueue.tracking.erase x :=
      fun hc => h4 (List.mem_of_mem_erase hc)
    simp only [readSensorsStep, hd]
    cases readOk with
    | false => exact ⟨h1, h2, hrest, herase⟩
    | true =>
      simp only [if_pos rfl]
      exact starved_pubfold x s hxs readings _ ⟨h1, h2, hrest, herase⟩

/-- The PUBLISH_DATA tick preserves starvation: no queued item references
the starved sensor, so markPublishComplete can only erase some other
sensor from the pending set. -/
theorem starved_publishData (mqttConnected sendOk : Bool) (now : Nat)
    (st : C3State) (s : SId) (h : starved st s) :
    starved (publishDataStep mqttConnected sendOk now st) s := by
  obtain ⟨h1, h2, h3, h4⟩ := h
  cases mqttConnected with
  | false => exact ⟨h1, h2, h3, h4⟩
  | true =>
    rcases hq : st.pubQ.queue with _ | ⟨item, rest⟩
    · have hd : dequeueForPublish st.pubQ = none := by
        unfold dequeueForPublish
        rw [hq]
      simp only [publishDataStep, hd]
      exact ⟨h1, h2, h3, h4⟩
    · have hd : dequeueForPublish st.pubQ =
          some (item, { st.pubQ with queue := rest }) := by
        unfold dequeueForPublish
        rw [hq]
      have hitem : item.sourceSensor ≠ some s :=
        h2 item (hq ▸ List.mem_cons_self item rest)
      have hrest : ∀ it ∈ rest, it.sourceSensor ≠ some s :=
        fun it hit => h2 it (hq ▸ List.mem_cons_of_mem item hit)
      simp only [publishDataStep, hd, Bool.not_true, Bool.false_eq_true,
        if_false]
      cases sendOk with
      | false => exact ⟨h1, hrest, h3, h4⟩
      | true =>
        simp only [if_pos rfl, markPublishComplete]
        cases hsrc : item.sourceSensor with
        | none => exact ⟨h1, hrest, h3, h4⟩
        | some y =>
          have hys : s ≠ y := by
            intro he
            exact hitem (hsrc.trans (by rw [he]))
          refine ⟨?_, hrest, h3, h4⟩
          exact (List.mem_erase_of_ne hys).mpr h1

/-- Queuing a boot-status item (which carries no source sensor) preserves
starvation. -/
theorem starved_publishBootStatus (topic uuid value ts : String)
    (st : C3State) (s : SId) (h : starved st s) :
    starved (publishBootStatusStep topic uuid value ts st) s := by
  obtain ⟨h1, h2, h3, h4⟩ := h
  refine ⟨h1, ?_, h3, h4⟩
  intro it hit
  rcases List.mem_append.mp hit with hold | hnew
  · exact h2 it hold
  · rw [List.mem_singleton.mp hnew]
    intro hc
    cases hc

/-- Starvation is preserved by every controller3 operation. -/
theorem starved_applyC3Op (st : C3State) (op : C3Op) (s : SId)
    (h : starved st s) : starved (applyC3Op st op) s := by
  cases op with
  | checkRead now ids => exact starved_checkRead now s ids st h
  | readSensors now readOk readings =>
    exact starved_readSensors now readOk readings st s h
  | publishData mqttConnected sendOk now =>
    exact starved_publishData mqttConnected sendOk now st s h
  | publishBootStatus topic uuid value ts =>
    exact starved_publishBootStatus topic uuid value ts st s h

/-- Starvation is preserved by every run of controller3 operations. -/
theorem starved_runC3 (s : SId) :
    ∀ (ops : List C3Op) (st : C3State), starved st s →
      starved (runC3 st ops) s := by
  intro ops
  induction ops with
  | nil => exact fun st h => h
  | cons op rest ih =>
    intro st h
    exact ih (applyC3Op st op) (starved_applyC3Op st op s h)

/-- Evaluation of a failed PUBLISH_DATA send: the front item is discarded
and the pending set is untouched. -/
theorem publishDataStep_fail (now : Nat) (st : C3State)
    (item : PublishData) (rest : List PublishData)
    (hq : st.pubQ.queue = item :: rest) :
    publishDataStep true false now st =
      { st with pubQ := { st.pubQ with queue := rest },
                fsm := FsmState.WAIT } := by
  have hd : dequeueForPublish st.pubQ =
      some (item, { st.pubQ with queue := rest }) := by
    unfold dequeueForPublish
    rw [hq]
  simp [publishDataStep, hd]

/-- Claim C10: dequeueForPublish never touches the pending set — only
markPublishComplete does, and the FSM invokes it only on a confirmed send.
Hence when a send fails the item is discarded while its source sensor
stays in the pending set, and from that state on, under every sequence of
controller3 operations, the sensor remains pending and never re-enters the
read queue. -/
theorem c10_failed_publish_starves_sensor (st : C3State) (s : SId)
    (item : PublishData) (rest : List PublishData) (now : Nat)
    (hq : st.pubQ.queue = item :: rest)
    (_hsrc : item.sourceSensor = some s)
    (hpend : s ∈ st.pubQ.sensorsWithPendingData)
    (hrest : ∀ it ∈ rest, it.sourceSensor ≠ some s)
    (hrq1 : s ∉ st.readQueue.queue) (hrq2 : s ∉ st.readQueue.tracking) :
    (∀ (q : SPQ) (it : PublishData) (q2 : SPQ),
      dequeueForPublish q = some (it, q2) →
        q2.sensorsWithPendingData = q.sensorsWithPendingData)
    ∧ (publishDataStep true false now st).pubQ.queue = rest
    ∧ (publishDataStep true false now st).pubQ.sensorsWithPendingData =
        st.pubQ.sensorsWithPendingData
    ∧ ∀ ops : List C3Op,
        s ∈ (runC3 (publishDataStep true false now st)
          ops).pubQ.sensorsWithPendingData
        ∧ s ∉ (runC3 (publishDataStep true false now st) ops).readQueue.queue
        ∧ s ∉ (runC3 (publishDataStep true false now st)
            ops).readQueue.tracking := by
  have hfail := publishDataStep_fail now st item rest hq
  refine ⟨?_, ?_, ?_, ?_⟩
  · intro q it q2 hd
    unfold dequeueForPublish at hd
    rcases hqq : q.queue with _ | ⟨i2, r2⟩ <;> rw [hqq] at hd
    · cases hd
    · have h2 := Option.some.inj hd
      have hq2 : q2 = { q with queue := r2 } := (congrArg Prod.snd h2).symm
      rw [hq2]
  · rw [hfail]
  · rw [hfail]
  · intro ops
    have hstarved : starved (publishDataStep true false now st) s := by
      rw [hfail]
      exact ⟨hpend, hrest, hrq1, hrq2⟩
    have h := starved_runC3 s ops (publishDataStep true false now st)
      hstarved
    exact ⟨h.1, h.2.2.1, h.2.2.2⟩

/-- Witness for C10: in the fixture state the only queued item (from
sensor 0) fails to send; afterwards, even after a scheduler pass and
another publish tick, sensor 0 is still pending and not in the read
queue. -/
theorem c10_failed_publish_starves_sensor_witness :
    (publishDataStep true false 7000 c10StW).pubQ.sensorsWithPendingData =
      [0]
    ∧ 0 ∈ (runC3 (publishDataStep true false 7000 c10StW)
        [C3Op.checkRead 8000 [0], C3Op.publishData true true 9000]
        ).pubQ.sensorsWithPendingData
    ∧ 0 ∉ (runC3 (publishDataStep true false 7000 c10StW)
        [C3Op.checkRead 8000 [0], C3Op.publishData true true 9000]
        ).readQueue.queue := by
  have h := c10_failed_publish_starves_sensor c10StW 0
    ⟨"t", "u", "v", "T", none, some 0⟩ [] 7000 rfl rfl (by decide)
    (by simp) (by simp [c10StW]) (by simp [c10StW])
  have h4 := h.2.2.2 [C3Op.checkRead 8000 [0], C3Op.publishData true true 9000]
  exact ⟨h.2.2.1, h4.1, h4.2.1⟩

end Mush
